import Mathlib

/-!
Verification of the conversation state machine and persistence/request
lifecycle layer of the PDB-AI chat client (src/script.js).

Modelling conventions for the shallow embedding:
* Wall-clock instants (JS Date.now and toISOString) are abstract Nat clock
  readings passed explicitly to every operation that reads the clock; a
  message timestamp stores such a reading.
* localStorage is a Store record holding the two keys the script uses,
  pdb-ai-chats and currentChatId.
* JSON.stringify and JSON.parse are modelled at the level of JSON values:
  a well-formed stored string is represented by the Json value it parses
  to (constructor Raw.wellFormed), a malformed string by Raw.malformed,
  on which jsonParse throws, i.e. returns Except.error.
* The DOM typing indicator is modelled as a count of indicators present;
  each request continuation removes exactly its own indicator.
* The AbortController is modelled by a generation counter callGen that is
  bumped whenever the script replaces the controller; a fetch outcome
  (success body, HTTP error status, transport failure, or AbortError) is
  delivered to the awaiting continuation as an explicit Outcome value.
* Host string functions used by the script (String.prototype.trim,
  Array.prototype.join) are given structurally recursive models.
-/

/-- JSON value, the data format of the response body and of localStorage. -/
inductive Json : Type where
  | null : Json
  | str : String → Json
  | num : Nat → Json
  | arr : List Json → Json
  | obj : List (String × Json) → Json

/-- Attachment descriptor built by handleFileUpload (src/script.js line 193). -/
structure FileDesc where
  name : String
  size : Nat
  type : String
  url : String
deriving DecidableEq

/-- One chat turn as built by src/script.js: user messages carry
sender, text, file and timestamp; assistant messages sender, text and
timestamp. The field text is an Option so that none models the JS value
undefined, which is reachable when the API reply body lacks the final
text field. -/
structure Message where
  sender : String
  text : Option String
  file : Option FileDesc
  timestamp : Nat
deriving DecidableEq

/-- Conversation record as created by initializeChat and startNewChat. -/
structure Chat where
  id : String
  createdAt : Nat
  updatedAt : Nat
  messages : List Message
deriving DecidableEq

/-- In-memory chats object, a JS object keyed by chat id; modelled as an
association list in insertion order, as JS objects preserve key order. -/
abbrev ChatMap := List (String × Chat)

/-- Property read on the chats object. -/
def lookupChat : ChatMap → String → Option Chat
  | [], _ => none
  | (k, c) :: rest, id => if k = id then some c else lookupChat rest id

/-- Property write on the chats object: replaces the value when the key
exists, otherwise appends the new key at the end. -/
def setChat : ChatMap → String → Chat → ChatMap
  | [], id, c => [(id, c)]
  | (k, c0) :: rest, id, c =>
      if k = id then (k, c) :: rest else (k, c0) :: setChat rest id c

/-- Raw content of a localStorage slot: either a well-formed JSON string,
represented by the Json value it denotes, or a malformed string. -/
inductive Raw : Type where
  | wellFormed : Json → Raw
  | malformed : Raw

/-- The two localStorage keys the script uses: pdb-ai-chats and
currentChatId (src/script.js lines 285, 297, 302, 303). -/
structure Store where
  chatsRaw : Option Raw
  currentId : Option String

/-- JSON encoding of an optional text, as JSON.stringify produces it. -/
def encodeOptStr : Option String → Json
  | none => Json.null
  | some s => Json.str s

/-- JSON encoding of the optional file descriptor. -/
def encodeFile : Option FileDesc → Json
  | none => Json.null
  | some f => Json.obj [("name", Json.str f.name), ("size", Json.num f.size),
      ("type", Json.str f.type), ("url", Json.str f.url)]

/-- JSON encoding of one message, with the key order the script uses. -/
def encodeMessage (m : Message) : Json :=
  Json.obj [("sender", Json.str m.sender), ("text", encodeOptStr m.text),
    ("file", encodeFile m.file), ("timestamp", Json.num m.timestamp)]

/-- JSON encoding of one conversation record. -/
def encodeChat (c : Chat) : Json :=
  Json.obj [("id", Json.str c.id), ("createdAt", Json.num c.createdAt),
    ("updatedAt", Json.num c.updatedAt),
    ("messages", Json.arr (c.messages.map encodeMessage))]

/-- JSON.stringify of the whole chats object (src/script.js line 302). -/
def encodeChats (m : ChatMap) : Json :=
  Json.obj (m.map fun p => (p.1, encodeChat p.2))

/-- Decoder inverting encodeOptStr; JSON.parse returns a structurally
equal value, which this decoder reads back into the typed model. -/
def decodeOptStr : Json → Option (Option String)
  | Json.null => some none
  | Json.str s => some (some s)
  | _ => none

/-- Decoder inverting encodeFile. -/
def decodeFile : Json → Option (Option FileDesc)
  | Json.null => some none
  | Json.obj [("name", Json.str n), ("size", Json.num s),
      ("type", Json.str t), ("url", Json.str u)] => some (some ⟨n, s, t, u⟩)
  | _ => none

/-- Decoder inverting encodeMessage. -/
def decodeMessage : Json → Option Message
  | Json.obj [("sender", Json.str sd), ("text", jt), ("file", jf),
      ("timestamp", Json.num ts)] => do
      let t ← decodeOptStr jt
      let f ← decodeFile jf
      some ⟨sd, t, f, ts⟩
  | _ => none

/-- Decoder for a list of encoded messages. -/
def decodeMsgList : List Json → Option (List Message)
  | [] => some []
  | j :: rest => do
      let m ← decodeMessage j
      let ms ← decodeMsgList rest
      some (m :: ms)

/-- Decoder inverting encodeChat. -/
def decodeChat : Json → Option Chat
  | Json.obj [("id", Json.str i), ("createdAt", Json.num ca),
      ("updatedAt", Json.num ua), ("messages", Json.arr js)] => do
      let ms ← decodeMsgList js
      some ⟨i, ca, ua, ms⟩
  | _ => none

/-- Decoder for the encoded chats object, entry by entry. -/
def decodeChatList : List (String × Json) → Option ChatMap
  | [] => some []
  | (k, j) :: rest => do
      let c ← decodeChat j
      let cs ← decodeChatList rest
      some ((k, c) :: cs)

/-- Decoder inverting encodeChats: reads the parsed JSON value of the
pdb-ai-chats slot back into the typed chat map. -/
def decodeChats : Json → Option ChatMap
  | Json.obj fs => decodeChatList fs
  | _ => none

/-- JSON.parse applied to a raw stored string: a well-formed string
yields its Json value, a malformed one throws a SyntaxError, modelled as
Except.error. -/
def jsonParse : Raw → Except Unit Json
  | Raw.wellFormed j => Except.ok j
  | Raw.malformed => Except.error ()

/-- loadAllChats (src/script.js lines 296 to 299): reads the pdb-ai-chats
slot and returns JSON.parse of it when present, an empty object literal
otherwise. The script performs no shape validation and wraps the parse in
no try block. -/
def loadAllChats (stored : Option Raw) : Except Unit Json :=
  match stored with
  | none => Except.ok (Json.obj [])
  | some r => jsonParse r

/-- saveAllChats (src/script.js lines 301 to 304): overwrites both
localStorage slots with the serialized chats object and the current id. -/
def saveAllChats (chats : ChatMap) (currentChatId : String) : Store :=
  { chatsRaw := some (Raw.wellFormed (encodeChats chats)),
    currentId := some currentChatId }

/-- Mutable script state: the module level variables currentChatId and
chats, the persisted store, the AbortController generation counter, and
the number of typing indicators currently in the DOM. -/
structure AppState where
  currentChatId : String
  chats : ChatMap
  store : Store
  callGen : Nat
  typing : Nat

/-- Seeded greeting text (src/script.js lines 31 and 266). -/
def greetingText : String :=
  "Hello! I'm PDB AI, your advanced assistant. How can I help you today?"

/-- Seeded assistant greeting message. -/
def greeting (t : Nat) : Message :=
  { sender := "ai", text := some greetingText, file := none, timestamp := t }

/-- Fresh conversation record as built at creation time. -/
def freshChat (id : String) (t : Nat) : Chat :=
  { id := id, createdAt := t, updatedAt := t, messages := [greeting t] }

/-- addMessage (src/script.js lines 119 to 124): pushes msg onto the
current conversation, bumps updatedAt, and write-through persists via
saveAllChats. When the current chat is absent the JS code would throw a
TypeError on the push; that state is unreachable after initializeChat and
the model leaves the state unchanged there. -/
def addMessage (st : AppState) (msg : Message) (now : Nat) : AppState :=
  match lookupChat st.chats st.currentChatId with
  | none => st
  | some c =>
      let c2 := { c with messages := c.messages ++ [msg], updatedAt := now }
      let chats2 := setChat st.chats st.currentChatId c2
      { st with chats := chats2, store := saveAllChats chats2 st.currentChatId }

/-- JS template literal interpolation of a possibly undefined string. -/
def jsTemplateStr : Option String → String
  | some s => s
  | none => "undefined"

/-- Array.prototype.join with a separator, the host primitive used at
src/script.js line 101; empty list joins to the empty string. -/
def joinSep (sep : String) : List String → String
  | [] => ""
  | [x] => x
  | x :: rest => x ++ sep ++ joinSep sep rest

/-- Prompt construction inlined in getAIResponse (src/script.js line
101): one entry per message, sender colon space text, joined by
newlines. -/
def buildPrompt (messages : List Message) : String :=
  joinSep "\n" (messages.map fun m => m.sender ++ ": " ++ jsTemplateStr m.text)

/-- JS whitespace predicate for String.prototype.trim (the characters
relevant to this client; the full JS set also has less common code
points, none of which the claims exercise). -/
def isJsWs (c : Char) : Bool :=
  c = ' ' || c = '\t' || c = '\n' || c = '\r'

/-- String.prototype.trim, the host primitive used at src/script.js line
56: strips leading and trailing whitespace. -/
def jsTrim (s : String) : String :=
  String.mk (((s.data.dropWhile isJsWs).reverse.dropWhile isJsWs).reverse)

/-- One outbound fetch to the generation endpoint, tagged with the
AbortController generation whose signal it carries. -/
structure NetworkCall where
  gen : Nat
  prompt : String
deriving DecidableEq

/-- Synchronous prefix of sendMessage (src/script.js lines 55 to 77, up
to the await): validation gate on trimmed text and attached file; then
abort of the previous controller and creation of a fresh one; append of
the user message; typing indicator; and the fetch issued with the prompt
built from the full updated history. Returns the new state and the
network call issued, none when the validation gate made the call a
no-op. -/
def sendMessageStart (st : AppState) (inputText : String)
    (currentFile : Option FileDesc) (now : Nat) :
    AppState × Option NetworkCall :=
  let text := jsTrim inputText
  if text = "" ∧ currentFile = none then (st, none)
  else
    let st1 := { st with callGen := st.callGen + 1 }
    let userMsg : Message :=
      { sender := "user", text := some text, file := currentFile, timestamp := now }
    let st2 := addMessage st1 userMsg now
    let st3 := { st2 with typing := st2.typing + 1 }
    let prompt :=
      buildPrompt (((lookupChat st3.chats st3.currentChatId).map Chat.messages).getD [])
    (st3, some { gen := st3.callGen, prompt := prompt })

/-- Dynamic JS value flowing through the response field accesses:
either undefined or a JSON value. -/
inductive JsVal : Type where
  | undef : JsVal
  | val : Json → JsVal

/-- Assoc lookup on the fields of a parsed JSON object. -/
def jsField : List (String × Json) → String → Option Json
  | [], _ => none
  | (k, j) :: rest, key => if k = key then some j else jsField rest key

/-- JS property access v[k] as exercised by the response extraction
chain: access on undefined or null throws a TypeError; on an object it
is the field value or undefined; on an array, key "0" is the first
element; on the remaining primitives reached here it is undefined. -/
def jsGet : JsVal → String → Except Unit JsVal
  | JsVal.undef, _ => Except.error ()
  | JsVal.val Json.null, _ => Except.error ()
  | JsVal.val (Json.obj fs), k =>
      match jsField fs k with
      | some j => Except.ok (JsVal.val j)
      | none => Except.ok JsVal.undef
  | JsVal.val (Json.arr xs), k =>
      if k = "0" then
        match xs with
        | [] => Except.ok JsVal.undef
        | x :: _ => Except.ok (JsVal.val x)
      else Except.ok JsVal.undef
  | JsVal.val (Json.str s), k =>
      if k = "0" then
        match s.data with
        | [] => Except.ok JsVal.undef
        | ch :: _ => Except.ok (JsVal.val (Json.str (String.mk [ch])))
      else Except.ok JsVal.undef
  | JsVal.val (Json.num _), _ => Except.ok JsVal.undef

/-- Unguarded field access data.candidates[0].content.parts[0].text at
src/script.js line 116. -/
def extractText (body : Json) : Except Unit JsVal := do
  let c ← jsGet (JsVal.val body) "candidates"
  let c0 ← jsGet c "0"
  let ct ← jsGet c0 "content"
  let p ← jsGet ct "parts"
  let p0 ← jsGet p "0"
  jsGet p0 "text"

/-- JS string coercion of a JSON value, used when a non-string reply
value is later interpolated; arrays coerce one level deep here, which is
all any state reachable in this development exercises. -/
def jsCoerce : Json → String
  | Json.null => "null"
  | Json.str s => s
  | Json.num n => toString n
  | Json.obj _ => "[object Object]"
  | Json.arr _ => ""

/-- Text field stored for the assistant reply message: the script stores
the raw extracted JS value; the model keeps message texts as Option
String, none for undefined, with non-string shapes coerced. -/
def JsVal.asText : JsVal → Option String
  | JsVal.undef => none
  | JsVal.val (Json.str s) => some s
  | JsVal.val j => some (jsCoerce j)

/-- Settlement of one fetch as observed by the awaiting continuation. -/
inductive Outcome : Type where
  | success : Raw → Outcome
  | httpError : Nat → Outcome
  | transportFailure : Outcome
  | aborted : Outcome

/-- Generic user-visible error text (src/script.js line 93). -/
def apologyText : String := "Sorry, I encountered an error. Please try again."

/-- Assistant-authored generic error message. -/
def errorMessage (t : Nat) : Message :=
  { sender := "ai", text := some apologyText, file := none, timestamp := t }

/-- Continuation of sendMessage after the awaited getAIResponse settles
(src/script.js lines 78 to 96): this call's typing indicator is removed
in both branches; on fulfilment the assistant reply is appended; on ANY
rejection, including the AbortError raised when a newer submit aborted
this call's controller, the catch block appends the generic apology
message, and the raw error goes only to console.error. The code consults
no staleness information here. A non-ok HTTP status and a response body
that is not valid JSON both surface as rejections. -/
def handleOutcome (st : AppState) (o : Outcome) (now : Nat) : AppState :=
  let st1 := { st with typing := st.typing - 1 }
  match o with
  | Outcome.success raw =>
      match (jsonParse raw).bind extractText with
      | Except.ok v =>
          addMessage st1
            { sender := "ai", text := v.asText, file := none, timestamp := now } now
      | Except.error _ => addMessage st1 (errorMessage now) now
  | _ => addMessage st1 (errorMessage now) now

/-- initializeChat (src/script.js lines 23 to 38): seeds the current
conversation with one assistant greeting when absent, persists, and
leaves the state unchanged when the conversation already exists. -/
def initializeChat (st : AppState) (now : Nat) : AppState :=
  match lookupChat st.chats st.currentChatId with
  | some _ => st
  | none =>
      let chats2 := setChat st.chats st.currentChatId (freshChat st.currentChatId now)
      { st with chats := chats2, store := saveAllChats chats2 st.currentChatId }

/-- Time-based id generation, chat- followed by Date.now (src/script.js
lines 259 and 287). -/
def newChatId (now : Nat) : String := "chat-" ++ toString now

/-- startNewChat (src/script.js lines 258 to 273): installs a fresh
conversation under the time-based id, sets it current, persists, and via
resetInput aborts any pending call and replaces the controller. -/
def startNewChat (st : AppState) (now : Nat) : AppState :=
  let id := newChatId now
  let chats2 := setChat st.chats id (freshChat id now)
  { st with currentChatId := id, chats := chats2,
            store := saveAllChats chats2 id, callGen := st.callGen + 1 }

/-- getCurrentChatId (src/script.js lines 284 to 291): returns the
persisted pointer, generating and persisting a time-based id when none
exists. -/
def getCurrentChatId (store : Store) (now : Nat) : String × Store :=
  match store.currentId with
  | some id => (id, store)
  | none => (newChatId now, { store with currentId := some (newChatId now) })

/-- Start-up sequence (src/script.js lines 15, 16 and 20):
getCurrentChatId, then loadAllChats, then initializeChat runs on the
result. Nothing in the script catches a JSON.parse failure raised by
loadAllChats, so it propagates out of the DOMContentLoaded handler and
initialization aborts; the model therefore propagates the error. -/
def initApp (store : Store) (now : Nat) : Except Unit (String × Json) := do
  let idAndStore := getCurrentChatId store now
  let j ← loadAllChats store.chatsRaw
  Except.ok (idAndStore.1, j)

/-- One externally visible stimulus of the message pipeline: a submit
with the current input text and attached file, or the settlement of the
fetch issued for the call of generation gen. -/
inductive Event : Type where
  | submit : String → Option FileDesc → Nat → Event
  | respond : Nat → Outcome → Nat → Event

/-- Single pipeline step. The generation tag on respond records which
fetch settled; the code itself reads no such information when applying a
result, which is exactly what the stale-response theorems exploit. -/
def step (st : AppState) (e : Event) : AppState :=
  match e with
  | Event.submit text file t => (sendMessageStart st text file t).1
  | Event.respond _ o t => handleOutcome st o t

/-- Runs a sequence of pipeline events. -/
def run (st : AppState) : List Event → AppState
  | [] => st
  | e :: es => run (step st e) es

/-- Concrete conversation used by the evaluation witnesses. -/
def demoChat : Chat := freshChat "c0" 0

/-- Concrete initialized state used by the evaluation witnesses. -/
def demoState : AppState :=
  { currentChatId := "c0", chats := [("c0", demoChat)],
    store := saveAllChats [("c0", demoChat)] "c0", callGen := 0, typing := 0 }

/-! ### Lemmas about the chats object -/

theorem lookupChat_setChat_self (m : ChatMap) (id : String) (c : Chat) :
    lookupChat (setChat m id c) id = some c := by
  induction m with
  | nil => simp [setChat, lookupChat]
  | cons p rest ih =>
      obtain ⟨k, c0⟩ := p
      by_cases h : k = id
      · simp [setChat, lookupChat, h]
      · simp [setChat, lookupChat, h, ih]

theorem lookupChat_setChat_ne (m : ChatMap) (id k : String) (c : Chat) (h : k ≠ id) :
    lookupChat (setChat m id c) k = lookupChat m k := by
  induction m with
  | nil => simp [setChat, lookupChat, Ne.symm h]
  | cons p rest ih =>
      obtain ⟨k0, c0⟩ := p
      by_cases h0 : k0 = id
      · subst h0
        simp [setChat, lookupChat, Ne.symm h]
      · simp [setChat, lookupChat, h0, ih]

theorem lookupChat_setChat_cases (m : ChatMap) (id k : String) (c c2 : Chat)
    (h : lookupChat (setChat m id c) k = some c2) :
    (k = id ∧ c2 = c) ∨ lookupChat m k = some c2 := by
  by_cases hk : k = id
  · subst hk
    rw [lookupChat_setChat_self] at h
    exact Or.inl ⟨rfl, (Option.some.inj h).symm⟩
  · right
    rw [lookupChat_setChat_ne _ _ _ _ hk] at h
    exact h

/-! ### Shape lemmas for the mutation primitive -/

theorem addMessage_currentChatId (st : AppState) (m : Message) (t : Nat) :
    (addMessage st m t).currentChatId = st.currentChatId := by
  unfold addMessage
  split <;> rfl

theorem addMessage_typing (st : AppState) (m : Message) (t : Nat) :
    (addMessage st m t).typing = st.typing := by
  unfold addMessage
  split <;> rfl

theorem addMessage_callGen (st : AppState) (m : Message) (t : Nat) :
    (addMessage st m t).callGen = st.callGen := by
  unfold addMessage
  split <;> rfl

theorem addMessage_lookup_self (st : AppState) (msg : Message) (now : Nat) (cur : Chat)
    (h : lookupChat st.chats st.currentChatId = some cur) :
    lookupChat (addMessage st msg now).chats st.currentChatId
      = some { cur with messages := cur.messages ++ [msg], updatedAt := now } := by
  unfold addMessage
  rw [h]
  simp [lookupChat_setChat_self]

theorem addMessage_lookup (st : AppState) (msg : Message) (now : Nat) (k : String) (c : Chat)
    (h : lookupChat st.chats k = some c) :
    ∃ c2 tail, lookupChat (addMessage st msg now).chats k = some c2 ∧
      c2.messages = c.messages ++ tail := by
  cases hcur : lookupChat st.chats st.currentChatId with
  | none =>
      refine ⟨c, [], ?_, by simp⟩
      unfold addMessage
      rw [hcur]
      exact h
  | some cur =>
      by_cases hk : k = st.currentChatId
      · subst hk
        exact ⟨_, [msg], addMessage_lookup_self st msg now c h, rfl⟩
      · refine ⟨c, [], ?_, by simp⟩
        unfold addMessage
        rw [hcur]
        simpa [lookupChat_setChat_ne _ _ _ _ hk] using h

theorem addMessage_lookup_rev (st : AppState) (msg : Message) (now : Nat) (k : String)
    (c2 : Chat) (h : lookupChat (addMessage st msg now).chats k = some c2) :
    ∃ c tail, lookupChat st.chats k = some c ∧ c2.messages = c.messages ++ tail := by
  cases hcur : lookupChat st.chats st.currentChatId with
  | none =>
      unfold addMessage at h
      rw [hcur] at h
      exact ⟨c2, [], h, by simp⟩
  | some cur =>
      unfold addMessage at h
      rw [hcur] at h
      simp only at h
      rcases lookupChat_setChat_cases _ _ _ _ _ h with ⟨hk, hc⟩ | hold
      · subst hk
        subst hc
        exact ⟨cur, [msg], hcur, rfl⟩
      · exact ⟨c2, [], hold, by simp⟩

theorem handleOutcome_eq_addMessage (st : AppState) (o : Outcome) (now : Nat) :
    ∃ m, handleOutcome st o now
      = addMessage { st with typing := st.typing - 1 } m now := by
  cases o with
  | success raw =>
      cases hx : (jsonParse raw).bind extractText with
      | ok v =>
          exact ⟨{ sender := "ai", text := v.asText, file := none, timestamp := now },
            by simp [handleOutcome, hx]⟩
      | error e => exact ⟨errorMessage now, by simp [handleOutcome, hx]⟩
  | httpError s => exact ⟨errorMessage now, rfl⟩
  | transportFailure => exact ⟨errorMessage now, rfl⟩
  | aborted => exact ⟨errorMessage now, rfl⟩

/-! ### Pipeline step lemmas -/

theorem sendMessageStart_fst_of_gate (st : AppState) (text : String)
    (file : Option FileDesc) (t : Nat) (h : ¬(jsTrim text = "" ∧ file = none)) :
    (sendMessageStart st text file t).1
      = { addMessage { st with callGen := st.callGen + 1 }
            { sender := "user", text := some (jsTrim text), file := file,
              timestamp := t } t with
          typing := (addMessage { st with callGen := st.callGen + 1 }
            { sender := "user", text := some (jsTrim text), file := file,
              timestamp := t } t).typing + 1 } := by
  simp [sendMessageStart, h]

theorem step_lookup (st : AppState) (e : Event) (k : String) (c : Chat)
    (h : lookupChat st.chats k = some c) :
    ∃ c2 tail, lookupChat (step st e).chats k = some c2 ∧
      c2.messages = c.messages ++ tail := by
  cases e with
  | submit text file t =>
      by_cases hg : jsTrim text = "" ∧ file = none
      · exact ⟨c, [], by simpa [step, sendMessageStart, hg] using h, by simp⟩
      · obtain ⟨c2, tail, h2, h3⟩ :=
          addMessage_lookup { st with callGen := st.callGen + 1 }
            { sender := "user", text := some (jsTrim text), file := file,
              timestamp := t } t k c h
        refine ⟨c2, tail, ?_, h3⟩
        rw [show step st (Event.submit text file t) = (sendMessageStart st text file t).1 from rfl,
          sendMessageStart_fst_of_gate st text file t hg]
        exact h2
  | respond g o t =>
      obtain ⟨m, hm⟩ := handleOutcome_eq_addMessage st o t
      obtain ⟨c2, tail, h2, h3⟩ :=
        addMessage_lookup { st with typing := st.typing - 1 } m t k c h
      exact ⟨c2, tail, by simpa [step, hm] using h2, h3⟩

theorem step_lookup_rev (st : AppState) (e : Event) (k : String) (c2 : Chat)
    (h : lookupChat (step st e).chats k = some c2) :
    ∃ c tail, lookupChat st.chats k = some c ∧ c2.messages = c.messages ++ tail := by
  cases e with
  | submit text file t =>
      by_cases hg : jsTrim text = "" ∧ file = none
      · exact ⟨c2, [], by simpa [step, sendMessageStart, hg] using h, by simp⟩
      · have h2 : lookupChat (addMessage { st with callGen := st.callGen + 1 }
            { sender := "user", text := some (jsTrim text), file := file,
              timestamp := t } t).chats k = some c2 := by
          rw [show step st (Event.submit text file t)
                = (sendMessageStart st text file t).1 from rfl,
            sendMessageStart_fst_of_gate st text file t hg] at h
          exact h
        obtain ⟨c, tail, h3, h4⟩ := addMessage_lookup_rev _ _ _ _ _ h2
        exact ⟨c, tail, h3, h4⟩
  | respond g o t =>
      obtain ⟨m, hm⟩ := handleOutcome_eq_addMessage st o t
      have h2 : lookupChat (addMessage { st with typing := st.typing - 1 } m t).chats k
          = some c2 := by
        rw [show step st (Event.respond g o t) = handleOutcome st o t from rfl, hm] at h
        exact h
      obtain ⟨c, tail, h3, h4⟩ := addMessage_lookup_rev _ _ _ _ _ h2
      exact ⟨c, tail, h3, h4⟩

theorem run_lookup (st : AppState) (es : List Event) (k : String) (c : Chat)
    (h : lookupChat st.chats k = some c) :
    ∃ c2 tail, lookupChat (run st es).chats k = some c2 ∧
      c2.messages = c.messages ++ tail := by
  induction es generalizing st c with
  | nil => exact ⟨c, [], h, by simp⟩
  | cons e rest ih =>
      obtain ⟨c1, t1, h1, e1⟩ := step_lookup st e k c h
      obtain ⟨c2, t2, h2, e2⟩ := ih (step st e) c1 h1
      exact ⟨c2, t1 ++ t2, h2, by rw [e2, e1, List.append_assoc]⟩

theorem run_lookup_rev (st : AppState) (es : List Event) (k : String) (c2 : Chat)
    (h : lookupChat (run st es).chats k = some c2) :
    ∃ c tail, lookupChat st.chats k = some c ∧ c2.messages = c.messages ++ tail := by
  induction es generalizing st c2 with
  | nil => exact ⟨c2, [], h, by simp⟩
  | cons e rest ih =>
      obtain ⟨c1, t1, h1, e1⟩ := ih (step st e) c2 h
      obtain ⟨c, t0, h0, e0⟩ := step_lookup_rev st e k c1 h1
      exact ⟨c, t0 ++ t1, h0, by rw [e1, e0, List.append_assoc]⟩

/-! ### Prompt construction -/

/-- Specification-side line format: sender colon space text. -/
def promptLine (m : Message) : String :=
  m.sender ++ ": " ++ jsTemplateStr m.text

/-- Specification-side prompt formatter, written from the words of the
spec (section 4.3): one line per message, in message order, newline
joined, with every message of the conversation included. -/
def buildPromptSpec : List Message → String
  | [] => ""
  | [m] => promptLine m
  | m :: m2 :: rest => promptLine m ++ "\n" ++ buildPromptSpec (m2 :: rest)

theorem buildPrompt_eq_spec (ms : List Message) : buildPrompt ms = buildPromptSpec ms := by
  induction ms with
  | nil => rfl
  | cons m rest ih =>
      cases rest with
      | nil => rfl
      | cons m2 rest2 =>
          simp only [buildPrompt, List.map, joinSep, buildPromptSpec, promptLine] at ih ⊢
          rw [← ih]

theorem buildPrompt_snoc (ms : List Message) (m : Message) (h : ms ≠ []) :
    buildPrompt (ms ++ [m]) = buildPrompt ms ++ "\n" ++ promptLine m := by
  induction ms with
  | nil => exact absurd rfl h
  | cons m0 rest ih =>
      cases rest with
      | nil =>
          simp only [buildPrompt, List.map, joinSep, promptLine, List.nil_append,
            List.cons_append]
      | cons m1 rest2 =>
          have ih2 := ih (by simp)
          simp only [buildPrompt, List.map, joinSep, List.cons_append] at ih2 ⊢
          rw [ih2]
          simp [String.append_assoc]

/-! ### The apology text never carries the raw status -/

theorem apologyText_ne_raw (x : String) : apologyText ≠ "API failed: " ++ x := by
  intro h
  have h2 := congrArg String.data h
  rw [String.data_append] at h2
  have h4 : ("API failed: " : String).data = 'A' :: ("PI failed: " : String).data := by
    decide
  rw [h4] at h2
  have h3 := congrArg List.head? h2
  simp only [List.cons_append, List.head?_cons] at h3
  have h5 : apologyText.data.head? = some 'S' := by decide
  rw [h5] at h3
  exact absurd (Option.some.inj h3) (by decide)

/-! ### Round trip of the persisted encoding -/

theorem decodeOptStr_encodeOptStr (t : Option String) :
    decodeOptStr (encodeOptStr t) = some t := by
  cases t <;> rfl

theorem decodeFile_encodeFile (f : Option FileDesc) :
    decodeFile (encodeFile f) = some f := by
  cases f <;> rfl

theorem decodeMessage_encodeMessage (m : Message) :
    decodeMessage (encodeMessage m) = some m := by
  obtain ⟨sd, t, f, ts⟩ := m
  simp [decodeMessage, encodeMessage, decodeOptStr_encodeOptStr, decodeFile_encodeFile]

theorem decodeMsgList_encode (ms : List Message) :
    decodeMsgList (ms.map encodeMessage) = some ms := by
  induction ms with
  | nil => rfl
  | cons m rest ih => simp [decodeMsgList, decodeMessage_encodeMessage, ih]

theorem decodeChat_encodeChat (c : Chat) :
    decodeChat (encodeChat c) = some c := by
  obtain ⟨i, ca, ua, ms⟩ := c
  simp [decodeChat, encodeChat, decodeMsgList_encode]

theorem decodeChats_encodeChats (m : ChatMap) :
    decodeChats (encodeChats m) = some m := by
  have main : ∀ l : ChatMap, decodeChatList (l.map fun p => (p.1, encodeChat p.2)) = some l := by
    intro l
    induction l with
    | nil => rfl
    | cons p rest ih =>
        obtain ⟨k, c⟩ := p
        simp [decodeChatList, decodeChat_encodeChat, ih]
  simpa [decodeChats, encodeChats] using main m

/-! ### Claim theorems -/

/-- C5: a submit whose text trims to empty with no attached file is a
complete no-op: the returned state is the input state unchanged (so no
message append and no persistence write) and no network call is
issued. -/
theorem submit_empty_noop (st : AppState) (text : String) (t : Nat)
    (h : jsTrim text = "") :
    sendMessageStart st text none t = (st, none) := by
  simp [sendMessageStart, h]

/-- Evaluation witness for submit_empty_noop on whitespace input. -/
theorem submit_empty_noop_w :
    jsTrim "   " = "" ∧ sendMessageStart demoState "   " none 7 = (demoState, none) :=
  ⟨by decide, submit_empty_noop demoState "   " 7 (by decide)⟩

/-- C3: when the fetch for a submit settles with a non-success HTTP
status (the throw at src/script.js line 114) or with a transport
failure, the conversation gains exactly one assistant message carrying
the fixed generic apology text, the call's pending typing indicator is
removed, and the apology text is never the raw API-failed detail, for
any status. -/
theorem network_failure_generic_message (st : AppState) (status t : Nat) (cur : Chat)
    (h : lookupChat st.chats st.currentChatId = some cur) :
    ∃ cur2, lookupChat (handleOutcome st (Outcome.httpError status) t).chats
        st.currentChatId = some cur2 ∧
      cur2.messages = cur.messages ++ [errorMessage t] ∧
      (errorMessage t).sender = "ai" ∧
      (errorMessage t).text = some apologyText ∧
      apologyText ≠ "API failed: " ++ toString status ∧
      (handleOutcome st (Outcome.httpError status) t).typing = st.typing - 1 ∧
      handleOutcome st Outcome.transportFailure t
        = handleOutcome st (Outcome.httpError status) t := by
  have hd : handleOutcome st (Outcome.httpError status) t
      = addMessage { st with typing := st.typing - 1 } (errorMessage t) t := rfl
  refine ⟨{ cur with messages := cur.messages ++ [errorMessage t], updatedAt := t },
    ?_, rfl, rfl, rfl, apologyText_ne_raw _, ?_, rfl⟩
  · rw [hd]
    exact addMessage_lookup_self _ _ _ _ h
  · rw [hd, addMessage_typing]

/-- Evaluation witness for network_failure_generic_message at status
500. -/
theorem network_failure_generic_message_w :
    ∃ cur2, lookupChat (handleOutcome demoState (Outcome.httpError 500) 2).chats
        demoState.currentChatId = some cur2 ∧
      cur2.messages = demoChat.messages ++ [errorMessage 2] ∧
      (errorMessage 2).sender = "ai" ∧
      (errorMessage 2).text = some apologyText ∧
      apologyText ≠ "API failed: " ++ toString 500 ∧
      (handleOutcome demoState (Outcome.httpError 500) 2).typing = demoState.typing - 1 ∧
      handleOutcome demoState Outcome.transportFailure 2
        = handleOutcome demoState (Outcome.httpError 500) 2 :=
  network_failure_generic_message demoState 500 2 demoChat (by decide)

/-- C1 (divergence between code and claim): submit of first, then a
superseding submit of second which aborts the first call's controller;
when the first call's AbortError settles, the catch block of sendMessage
treats it like any other failure and appends the generic apology
message, so the superseded call's eventual result DOES mutate state: the
conversation ends with an apology message appended on behalf of the
stale call, and the chats object differs from its value before that
settlement. -/
theorem stale_abort_mutates_state :
    lookupChat (handleOutcome ((sendMessageStart
        ((sendMessageStart demoState "first" none 1).1) "second" none 2).1)
        Outcome.aborted 3).chats "c0"
      = some { id := "c0", createdAt := 0, updatedAt := 3,
               messages := [greeting 0,
                 { sender := "user", text := some "first", file := none, timestamp := 1 },
                 { sender := "user", text := some "second", file := none, timestamp := 2 },
                 errorMessage 3] } ∧
    (handleOutcome ((sendMessageStart ((sendMessageStart demoState "first" none 1).1)
        "second" none 2).1) Outcome.aborted 3).chats
      ≠ ((sendMessageStart ((sendMessageStart demoState "first" none 1).1)
        "second" none 2).1).chats :=
  ⟨by decide, by decide⟩

/-- Concrete 2xx response body that carries the whole expected chain
except the final text field: candidates[0].content.parts[0] is an empty
object. -/
def bodyMissingText : Json :=
  Json.obj [("candidates", Json.arr [Json.obj [("content",
    Json.obj [("parts", Json.arr [Json.obj []])])]])]

/-- C10 counterexample: on a 2xx body whose JSON lacks only the final
text field, the unguarded access chain does NOT throw (it evaluates to
undefined), and the pipeline appends an assistant message whose text is
undefined rather than the generic error message. -/
theorem missing_text_field_no_throw :
    extractText bodyMissingText = Except.ok JsVal.undef ∧
    lookupChat (handleOutcome demoState
        (Outcome.success (Raw.wellFormed bodyMissingText)) 4).chats "c0"
      = some { id := "c0", createdAt := 0, updatedAt := 4,
               messages := [greeting 0,
                 { sender := "ai", text := none, file := none, timestamp := 4 }] } ∧
    ({ sender := "ai", text := none, file := none, timestamp := 4 } : Message)
      ≠ errorMessage 4 :=
  ⟨rfl, by decide, by decide⟩

/-- C10 amended: a 2xx response whose body makes any intermediate step
of the access chain (candidates, candidates[0], content, parts,
parts[0]) hit undefined or null throws a TypeError, and the pipeline
then behaves exactly as for an ApiError, appending exactly one generic
assistant error message; a 2xx body that is not valid JSON behaves the
same way; but when only the final text field is absent the access
evaluates to undefined without throwing and an assistant message with
undefined text is appended as the reply. -/
theorem malformed_success_like_api_error :
    (∀ st body now, extractText body = Except.error () →
       handleOutcome st (Outcome.success (Raw.wellFormed body)) now
         = handleOutcome st (Outcome.httpError 500) now) ∧
    (∀ st now, handleOutcome st (Outcome.success Raw.malformed) now
       = handleOutcome st (Outcome.httpError 500) now) ∧
    (∀ st body now cur, lookupChat st.chats st.currentChatId = some cur →
       extractText body = Except.ok JsVal.undef →
       ∃ cur2, lookupChat (handleOutcome st
             (Outcome.success (Raw.wellFormed body)) now).chats st.currentChatId
           = some cur2 ∧
         cur2.messages = cur.messages ++
           [{ sender := "ai", text := none, file := none, timestamp := now }]) := by
  refine ⟨?_, ?_, ?_⟩
  · intro st body now hx
    have hb : (jsonParse (Raw.wellFormed body)).bind extractText = extractText body := rfl
    simp [handleOutcome, hb, hx]
  · intro st now
    rfl
  · intro st body now cur hcur hx
    have hb : (jsonParse (Raw.wellFormed body)).bind extractText = extractText body := rfl
    have hd : handleOutcome st (Outcome.success (Raw.wellFormed body)) now
        = addMessage { st with typing := st.typing - 1 }
            { sender := "ai", text := none, file := none, timestamp := now } now := by
      simp [handleOutcome, hb, hx, JsVal.asText]
    have hl := addMessage_lookup_self { st with typing := st.typing - 1 }
      { sender := "ai", text := none, file := none, timestamp := now } now cur hcur
    exact ⟨_, by rw [hd]; exact hl, rfl⟩

/-- Evaluation witness for malformed_success_like_api_error: a body
that is JSON null throws on the first access; a body missing only text
appends the undefined-text reply. -/
theorem malformed_success_like_api_error_w :
    (handleOutcome demoState (Outcome.success (Raw.wellFormed Json.null)) 9
      = handleOutcome demoState (Outcome.httpError 500) 9) ∧
    (∃ cur2, lookupChat (handleOutcome demoState
          (Outcome.success (Raw.wellFormed bodyMissingText)) 4).chats
          demoState.currentChatId = some cur2 ∧
        cur2.messages = demoChat.messages ++
          [{ sender := "ai", text := none, file := none, timestamp := 4 }]) :=
  ⟨malformed_success_like_api_error.1 demoState Json.null 9 rfl,
   malformed_success_like_api_error.2.2 demoState bodyMissingText 4 demoChat
     (by decide) rfl⟩

/-- C2: over any sequence of pipeline events arising from submit calls
(the submit itself and the settlement of the fetch it issued), every
conversation's message sequence is only ever extended at the end: its
previous value remains an initial segment, so no existing entry is
edited, removed or reordered; and a non-noop submit strictly increases
the current conversation's length, appending exactly the user message. -/
theorem submit_append_only (st : AppState) (es : List Event) (k : String) (c : Chat)
    (h : lookupChat st.chats k = some c) :
    (∃ c2 tail, lookupChat (run st es).chats k = some c2 ∧
       c2.messages = c.messages ++ tail) ∧
    (∀ text file t cur, lookupChat st.chats st.currentChatId = some cur →
       ¬(jsTrim text = "" ∧ file = none) →
       ∃ cur2, lookupChat (sendMessageStart st text file t).1.chats st.currentChatId
           = some cur2 ∧
         cur2.messages = cur.messages ++
           [{ sender := "user", text := some (jsTrim text), file := file,
              timestamp := t }] ∧
         cur2.messages.length = cur.messages.length + 1) := by
  refine ⟨run_lookup st es k c h, ?_⟩
  intro text file t cur hcur hg
  have h2 := addMessage_lookup_self { st with callGen := st.callGen + 1 }
    { sender := "user", text := some (jsTrim text), file := file, timestamp := t } t cur hcur
  exact ⟨_, by rw [sendMessageStart_fst_of_gate st text file t hg]; exact h2, rfl, by simp⟩

/-- Evaluation witness for submit_append_only. -/
theorem submit_append_only_w :
    (∃ c2 tail, lookupChat (run demoState [Event.submit "hi" none 1,
        Event.respond 1 (Outcome.httpError 500) 2]).chats "c0" = some c2 ∧
      c2.messages = demoChat.messages ++ tail) ∧
    (∃ cur2, lookupChat (sendMessageStart demoState "hi" none 1).1.chats
        demoState.currentChatId = some cur2 ∧
      cur2.messages = demoChat.messages ++
        [{ sender := "user", text := some (jsTrim "hi"), file := none, timestamp := 1 }] ∧
      cur2.messages.length = demoChat.messages.length + 1) :=
  ⟨(submit_append_only demoState [Event.submit "hi" none 1,
      Event.respond 1 (Outcome.httpError 500) 2] "c0" demoChat (by decide)).1,
   (submit_append_only demoState [] "c0" demoChat (by decide)).2 "hi" none 1 demoChat
     (by decide) (by decide)⟩

theorem sendMessageStart_snd_of_gate (st : AppState) (text : String)
    (file : Option FileDesc) (t : Nat) (hg : ¬(jsTrim text = "" ∧ file = none)) :
    (sendMessageStart st text file t).2
      = some { gen := st.callGen + 1,
               prompt := buildPrompt (((lookupChat (addMessage
                   { st with callGen := st.callGen + 1 }
                   { sender := "user", text := some (jsTrim text), file := file,
                     timestamp := t } t).chats st.currentChatId).map
                 Chat.messages).getD []) } := by
  simp [sendMessageStart, hg, addMessage_callGen, addMessage_currentChatId]

/-- C4: buildPrompt is deterministic and coincides with the spec-side
formatter (one line per message as sender colon space text, in message
order, newline joined, every message included, no truncation); appending
a message appends exactly its line; a non-noop submit issues exactly one
network call whose prompt is the full updated history in that format;
and the concrete scenario prompt evaluates as the spec states. -/
theorem buildPrompt_correct :
    (∀ ms, buildPrompt ms = buildPromptSpec ms) ∧
    (∀ ms m, ms ≠ [] →
       buildPrompt (ms ++ [m]) = buildPrompt ms ++ "\n" ++ promptLine m) ∧
    (∀ st text file t cur, lookupChat st.chats st.currentChatId = some cur →
       ¬(jsTrim text = "" ∧ file = none) →
       (sendMessageStart st text file t).2
         = some { gen := st.callGen + 1,
                  prompt := buildPrompt (cur.messages ++
                    [{ sender := "user", text := some (jsTrim text), file := file,
                       timestamp := t }]) }) ∧
    buildPrompt [{ sender := "ai", text := some "Hello!", file := none, timestamp := 0 },
        { sender := "user", text := some "What is 2+2?", file := none, timestamp := 1 }]
      = "ai: Hello!\nuser: What is 2+2?" := by
  refine ⟨buildPrompt_eq_spec, buildPrompt_snoc, ?_, by decide⟩
  intro st text file t cur hcur hg
  have h2 := addMessage_lookup_self { st with callGen := st.callGen + 1 }
    { sender := "user", text := some (jsTrim text), file := file, timestamp := t } t cur hcur
  have h3 : lookupChat (addMessage { st with callGen := st.callGen + 1 }
      { sender := "user", text := some (jsTrim text), file := file,
        timestamp := t } t).chats st.currentChatId
      = some { cur with messages := cur.messages ++
          [{ sender := "user", text := some (jsTrim text), file := file,
             timestamp := t }], updatedAt := t } := h2
  rw [sendMessageStart_snd_of_gate st text file t hg, h3]
  simp

/-- Evaluation witness for buildPrompt_correct. -/
theorem buildPrompt_correct_w :
    ((sendMessageStart demoState "What is 2+2?" none 1).2
      = some { gen := demoState.callGen + 1,
               prompt := buildPrompt (demoChat.messages ++
                 [{ sender := "user", text := some (jsTrim "What is 2+2?"), file := none,
                    timestamp := 1 }]) }) ∧
    buildPrompt ([greeting 0] ++ [errorMessage 1])
      = buildPrompt [greeting 0] ++ "\n" ++ promptLine (errorMessage 1) :=
  ⟨buildPrompt_correct.2.2.1 demoState "What is 2+2?" none 1 demoChat (by decide)
     (by decide),
   buildPrompt_correct.2.1 [greeting 0] (errorMessage 1) (by decide)⟩

/-- C6: initializeChat leaves an existing current conversation unchanged
(idempotence); when absent, it creates the conversation with exactly one
seeded assistant greeting; startNewChat likewise seeds exactly one
greeting; and conversations with nonempty message lists stay nonempty
under every pipeline event, under initializeChat and under startNewChat,
so a conversation is never empty from the moment it is created. -/
theorem conversation_seeded_and_nonempty :
    (∀ st now cur, lookupChat st.chats st.currentChatId = some cur →
       initializeChat st now = st) ∧
    (∀ st now, lookupChat st.chats st.currentChatId = none →
       lookupChat (initializeChat st now).chats st.currentChatId
         = some (freshChat st.currentChatId now) ∧
       (freshChat st.currentChatId now).messages = [greeting now] ∧
       (greeting now).sender = "ai") ∧
    (∀ st now, lookupChat (startNewChat st now).chats
         (startNewChat st now).currentChatId = some (freshChat (newChatId now) now)) ∧
    (∀ st es, (∀ k c, lookupChat st.chats k = some c → c.messages ≠ []) →
       ∀ k c, lookupChat (run st es).chats k = some c → c.messages ≠ []) ∧
    (∀ st now, (∀ k c, lookupChat st.chats k = some c → c.messages ≠ []) →
       ∀ k c, lookupChat (initializeChat st now).chats k = some c → c.messages ≠ []) ∧
    (∀ st now, (∀ k c, lookupChat st.chats k = some c → c.messages ≠ []) →
       ∀ k c, lookupChat (startNewChat st now).chats k = some c → c.messages ≠ []) := by
  refine ⟨?_, ?_, ?_, ?_, ?_, ?_⟩
  · intro st now cur h
    unfold initializeChat
    rw [h]
  · intro st now h
    unfold initializeChat
    rw [h]
    exact ⟨lookupChat_setChat_self _ _ _, rfl, rfl⟩
  · intro st now
    simp [startNewChat, lookupChat_setChat_self]
  · intro st es h k c hl
    obtain ⟨c0, tail, h0, e⟩ := run_lookup_rev st es k c hl
    have hne := h k c0 h0
    rw [e]
    intro hn
    exact hne (List.append_eq_nil.mp hn).1
  · intro st now h k c hl hn
    unfold initializeChat at hl
    cases hcur : lookupChat st.chats st.currentChatId with
    | some cur =>
        rw [hcur] at hl
        exact h k c hl hn
    | none =>
        rw [hcur] at hl
        simp only at hl
        rcases lookupChat_setChat_cases _ _ _ _ _ hl with ⟨hk, hc⟩ | hold
        · subst hc
          simp [freshChat] at hn
        · exact h k c hold hn
  · intro st now h k c hl hn
    have hl2 : lookupChat (setChat st.chats (newChatId now)
        (freshChat (newChatId now) now)) k = some c := hl
    rcases lookupChat_setChat_cases _ _ _ _ _ hl2 with ⟨hk, hc⟩ | hold
    · subst hc
      simp [freshChat] at hn
    · exact h k c hold hn

/-- Every conversation in the demo state has a nonempty message list. -/
theorem demoState_nonempty :
    ∀ k c, lookupChat demoState.chats k = some c → c.messages ≠ [] := by
  intro k c h
  by_cases hk : ("c0" : String) = k
  · have h2 : some demoChat = some c := by
      simpa [demoState, lookupChat, hk] using h
    rw [← Option.some.inj h2]
    decide
  · simp [demoState, lookupChat, hk] at h

/-- Evaluation witness for conversation_seeded_and_nonempty. -/
theorem conversation_seeded_and_nonempty_w :
    initializeChat demoState 9 = demoState ∧
    lookupChat (initializeChat { demoState with chats := [] } 9).chats "c0"
      = some (freshChat "c0" 9) ∧
    lookupChat (startNewChat demoState 5).chats (startNewChat demoState 5).currentChatId
      = some (freshChat (newChatId 5) 5) ∧
    ({ id := "c0", createdAt := 0, updatedAt := 1,
       messages := [greeting 0, errorMessage 1] } : Chat).messages ≠ [] :=
  ⟨conversation_seeded_and_nonempty.1 demoState 9 demoChat (by decide),
   (conversation_seeded_and_nonempty.2.1 { demoState with chats := [] } 9 (by decide)).1,
   conversation_seeded_and_nonempty.2.2.1 demoState 5,
   conversation_seeded_and_nonempty.2.2.2.1 demoState
     [Event.respond 0 Outcome.aborted 1] demoState_nonempty "c0"
     { id := "c0", createdAt := 0, updatedAt := 1,
       messages := [greeting 0, errorMessage 1] } (by decide)⟩

/-- C7 counterexample: two startNewChat calls in the same millisecond
return the same time-based id, so the id of the second call is NOT
distinct from all previously created conversation ids: it already names
an existing conversation. -/
theorem startNewChat_same_millisecond_collision :
    (startNewChat (startNewChat demoState 5) 5).currentChatId
      = (startNewChat demoState 5).currentChatId ∧
    lookupChat (startNewChat demoState 5).chats
      ((startNewChat (startNewChat demoState 5) 5).currentChatId) ≠ none :=
  ⟨by decide, by decide⟩

/-- C7 amended: startNewChat returns the time-based id chat-t; whenever
that id does not already occur among the existing conversation ids (in
particular whenever the call happens at a millisecond at which no
earlier id was generated), the returned id is distinct from every
existing conversation id, the new conversation holds exactly the seeded
greeting, it becomes the current conversation, and both storage slots
are persisted. -/
theorem startNewChat_fresh_id (st : AppState) (now : Nat)
    (h : lookupChat st.chats (newChatId now) = none) :
    (startNewChat st now).currentChatId = newChatId now ∧
    (∀ k c, lookupChat st.chats k = some c → k ≠ (startNewChat st now).currentChatId) ∧
    lookupChat (startNewChat st now).chats (newChatId now)
      = some (freshChat (newChatId now) now) ∧
    (freshChat (newChatId now) now).messages = [greeting now] ∧
    (startNewChat st now).store
      = saveAllChats (startNewChat st now).chats (newChatId now) := by
  refine ⟨rfl, ?_, ?_, rfl, rfl⟩
  · intro k c hk hEq
    have hk2 : lookupChat st.chats (newChatId now) = some c := by
      rw [← show (startNewChat st now).currentChatId = newChatId now from rfl, ← hEq]
      exact hk
    rw [h] at hk2
    exact Option.noConfusion hk2
  · have : lookupChat (setChat st.chats (newChatId now)
        (freshChat (newChatId now) now)) (newChatId now)
        = some (freshChat (newChatId now) now) := lookupChat_setChat_self _ _ _
    exact this

/-- Evaluation witness for startNewChat_fresh_id. -/
theorem startNewChat_fresh_id_w :
    (startNewChat demoState 5).currentChatId = newChatId 5 ∧
    "c0" ≠ (startNewChat demoState 5).currentChatId ∧
    lookupChat (startNewChat demoState 5).chats (newChatId 5)
      = some (freshChat (newChatId 5) 5) :=
  ⟨(startNewChat_fresh_id demoState 5 (by decide)).1,
   (startNewChat_fresh_id demoState 5 (by decide)).2.1 "c0" demoChat (by decide),
   (startNewChat_fresh_id demoState 5 (by decide)).2.2.1⟩

/-- C8 counterexample: with malformed stored data, JSON.parse inside
loadAllChats throws and nothing in the script catches it, so the whole
start-up sequence aborts with the error instead of failing soft. -/
theorem load_malformed_crashes :
    loadAllChats (some Raw.malformed) = Except.error () ∧
    initApp { chatsRaw := some Raw.malformed, currentId := some "c0" } 0
      = Except.error () :=
  ⟨rfl, rfl⟩

/-- C8 amended: loadAllChats returns the empty object when storage is
absent and the parsed value when storage holds well-formed JSON, but on
malformed stored data JSON.parse throws and the error propagates
uncaught through the initialization sequence, for every current-id slot
content and clock value. -/
theorem loadAllChats_amended :
    loadAllChats none = Except.ok (Json.obj []) ∧
    (∀ j, loadAllChats (some (Raw.wellFormed j)) = Except.ok j) ∧
    (∀ cid now, initApp { chatsRaw := some Raw.malformed, currentId := cid } now
       = Except.error ()) :=
  ⟨rfl, fun _ => rfl, fun _ _ => rfl⟩

/-- C9: persisting the chat map and reloading it from the store is the
identity: loadAllChats returns exactly the serialized object that
saveAllChats wrote, the current-id pointer is stored alongside it, and
decoding the serialized object restores every conversation id, both
timestamps, the message order and every message content exactly. -/
theorem save_load_roundtrip :
    (∀ m cur, loadAllChats (saveAllChats m cur).chatsRaw
       = Except.ok (encodeChats m)) ∧
    (∀ m cur, (saveAllChats m cur).currentId = some cur) ∧
    (∀ m : ChatMap, decodeChats (encodeChats m) = some m) :=
  ⟨fun _ _ => rfl, fun _ _ => rfl, decodeChats_encodeChats⟩
